import Mathlib

/-!
Verification development for the `advanced-vector` repository
(`src/advanced-vector/vector.h`): a dynamically resizable contiguous
container `Vector<T>` built on a raw-storage owner `RawMemory<T>`.

The C++ template code is shallowly embedded as Lean functions.  The
observable state of a `Vector<T>` is the list of its live element values
together with the capacity of its owned block.  `size_t` is modelled as
`Nat`, with an explicit `% 2 ^ 64` at the one place where the source can
underflow (`PopBack` on an empty vector).  Debug assertions (`assert`) are
modelled by `Except Unit`: a fired assertion is `.error ()`.  Exception
oracles (`Bool` / `Option Nat` parameters) decide whether and where an
element constructor throws, and operation models that need them return the
container state observed after the call together with bookkeeping of the
objects constructed and destroyed during the call.
-/

namespace AdvVec

/-- Observable state of `Vector<T>` (vector.h lines 90-93): the live,
constructed elements `elems` (indices `[0, size_)` of the block, in order)
and the capacity of the owned `RawMemory` block.  `size_` is
`elems.length`. -/
structure VecState (α : Type) where
  elems : List α
  cap : Nat
deriving DecidableEq, Repr

/-- New capacity chosen by every growth site (`Emplace` line 271,
`EmplaceBack` line 370, `PushBack` line 394): `size_ == 0 ? 1 : size_ * 2`.
Growth is only triggered when `size_ == capacity`, so the argument is the
current size. -/
def growCap (sz : Nat) : Nat :=
  if sz = 0 then 1 else sz * 2

/-- Relocation strategy chosen by the `if constexpr` dispatch used at every
relocation site (lines 252, 275, 373, 397, 435):
`std::is_nothrow_move_constructible_v<T> || !std::is_copy_constructible_v<T>`
selects move construction, otherwise copy construction is used.  The two
`Bool` arguments embed the two type traits of the element type `T`. -/
inductive Reloc where
  | move
  | copy
deriving DecidableEq, Repr

def relocKind (nothrowMove copyable : Bool) : Reloc :=
  if nothrowMove || !copyable then .move else .copy

/-- `Vector<T>::PushBack` (lines 390-410), value-level effect.
Growth branch (`data_.Capacity() == size_`): allocate a block of
`growCap size_`, placement-construct the new element at slot `size_`,
relocate the old elements into slots `[0, size_)` (move or copy; either way
the new block's first `size_` slots hold the old values in order), destroy
the old elements, swap blocks, `++size_`.
Otherwise: placement-construct the new element at slot `size_`, `++size_`. -/
def pushBack (v : VecState α) (x : α) : VecState α :=
  if v.cap = v.elems.length then
    { elems := v.elems ++ [x], cap := growCap v.elems.length }
  else
    { elems := v.elems ++ [x], cap := v.cap }

/-- `Vector<T>::EmplaceBack` (lines 366-387), value-level effect of
constructing the element from `args...`; identical block structure to
`PushBack` (growth branch lines 369-381, in-place branch line 383). -/
def emplaceBack (v : VecState α) (x : α) : VecState α :=
  if v.cap = v.elems.length then
    { elems := v.elems ++ [x], cap := growCap v.elems.length }
  else
    { elems := v.elems ++ [x], cap := v.cap }

/-- `Vector<T>::Emplace` (lines 264-308), value-level effect.  The entry
`assert(pos >= begin() && pos <= end())` (line 267) is the `.error` branch;
`pos_distance = pos - begin()` is the `Nat` argument `p`.
Growth branch (lines 270-289): new block of `growCap size_`, the new element
constructed at slot `p`, old `[0, p)` relocated to `[0, p)` and old
`[p, size_)` to `[p+1, size_+1)`, old destroyed, blocks swapped, `++size_`.
In-place, `pos != end` (lines 292-301): local temporary from `args...`, old
last element placement-constructed into slot `size_`, `[p, size_-1)` shifted
right one slot by `std::move_backward`, temporary move-assigned into slot
`p`, `++size_`.  In-place, `pos == end` (line 303): construct at slot
`size_`.  Returns the new state and `begin() + pos_distance` as an index. -/
def emplace (v : VecState α) (p : Nat) (x : α) : Except Unit (VecState α × Nat) :=
  if p ≤ v.elems.length then
    if v.cap = v.elems.length then
      .ok ({ elems := v.elems.take p ++ [x] ++ v.elems.drop p,
             cap := growCap v.elems.length }, p)
    else if p ≠ v.elems.length then
      .ok ({ elems := v.elems.take p ++ [x] ++ v.elems.drop p, cap := v.cap }, p)
    else
      .ok ({ elems := v.elems ++ [x], cap := v.cap }, p)
  else
    .error ()

/-- `Vector<T>::Insert` (lines 240-244): forwards to `Emplace`. -/
def insert (v : VecState α) (p : Nat) (x : α) : Except Unit (VecState α × Nat) :=
  emplace v p x

/-- `Vector<T>::Erase` (lines 247-261).  `assert(pos >= begin() && pos < end())`
(line 249) is the `.error` branch (`pos ≥ begin()` is automatic for a `Nat`
offset).  Then `[p+1, size_)` is shifted onto `[p, size_-1)` by move or copy
assignment, the last slot is destroyed, `--size_`, and `begin() + p` is
returned. -/
def erase (v : VecState α) (p : Nat) : Except Unit (VecState α × Nat) :=
  if p < v.elems.length then
    .ok ({ elems := v.elems.take p ++ v.elems.drop (p + 1), cap := v.cap }, p)
  else
    .error ()

/-- `Vector<T>::operator[]` (lines 459-468): `assert(index < size_)`, then the
element at `index`. -/
def getIdx (v : VecState α) (i : Nat) : Except Unit α :=
  if h : i < v.elems.length then
    .ok (v.elems.get ⟨i, h⟩)
  else
    .error ()

/-- The `--size_` of `PopBack` on the `size_t` member: decrement modulo
`2 ^ 64`, so `0 - 1` wraps to `2 ^ 64 - 1`. -/
def popBackSizeT (sz : Nat) : Nat :=
  (sz + (2 ^ 64 - 1)) % 2 ^ 64

/-- `Vector<T>::PopBack` (lines 413-417): `destroy_at(data_ + size_ - 1)`
then `--size_`.  The body contains no `assert`, so the model has no
`.error` branch: on an empty vector the source underflows `size_` (the
returned `Nat` is the wrapped `size_` value) instead of detecting the
violated precondition. -/
def popBack (v : VecState α) : Except Unit (List α × Nat) :=
  .ok (v.elems.dropLast, popBackSizeT v.elems.length)

/-! ## Relocation traces

For the relocation-strategy claims the growth operations are replayed with a
trace recording, for each existing element relocated into the new block,
whether it was relocated by move or by copy construction.  The dispatch is
the `if constexpr` embedded in `relocKind`; `uninitialized_move_n` /
`uninitialized_copy_n` over `size_` elements contribute `size_` events. -/

/-- `Vector<T>::Reserve` (lines 427-444) with its relocation trace: no-op if
`new_capacity <= capacity` (line 429); otherwise relocate all `size_`
elements into a block of exactly `new_capacity` (lines 433-443). -/
def reserveT (nothrowMove copyable : Bool) (v : VecState α) (newCapacity : Nat) :
    VecState α × List Reloc :=
  if newCapacity ≤ v.cap then
    (v, [])
  else
    ({ elems := v.elems, cap := newCapacity },
     List.replicate v.elems.length (relocKind nothrowMove copyable))

/-- `Vector<T>::EmplaceBack` growth dispatch (lines 369-381) with its
relocation trace. -/
def emplaceBackT (nothrowMove copyable : Bool) (v : VecState α) (x : α) :
    VecState α × List Reloc :=
  if v.cap = v.elems.length then
    ({ elems := v.elems ++ [x], cap := growCap v.elems.length },
     List.replicate v.elems.length (relocKind nothrowMove copyable))
  else
    ({ elems := v.elems ++ [x], cap := v.cap }, [])

/-- `Vector<T>::PushBack` growth dispatch (lines 393-405) with its relocation
trace. -/
def pushBackT (nothrowMove copyable : Bool) (v : VecState α) (x : α) :
    VecState α × List Reloc :=
  if v.cap = v.elems.length then
    ({ elems := v.elems ++ [x], cap := growCap v.elems.length },
     List.replicate v.elems.length (relocKind nothrowMove copyable))
  else
    ({ elems := v.elems ++ [x], cap := v.cap }, [])

/-- `Vector<T>::Emplace` growth dispatch (lines 270-289) with its relocation
trace: the prefix `[0, p)` and the suffix `[p, size_)` are relocated by two
calls of the strategy selected at line 275, `p` and `size_ - p` events. -/
def emplaceT (nothrowMove copyable : Bool) (v : VecState α) (p : Nat) (x : α) :
    Except Unit (VecState α × Nat) × List Reloc :=
  if p ≤ v.elems.length then
    if v.cap = v.elems.length then
      (.ok ({ elems := v.elems.take p ++ [x] ++ v.elems.drop p,
              cap := growCap v.elems.length }, p),
       List.replicate p (relocKind nothrowMove copyable) ++
         List.replicate (v.elems.length - p) (relocKind nothrowMove copyable))
    else
      (emplace v p x, [])
  else
    (.error (), [])

/-! ## Exception paths of the growth operations

`ThrowOutcome` records, for one call that may propagate an element-constructor
exception, the observable container state after the call, whether the
exception propagated, and how many objects were constructed into the new
block during the call versus destroyed again before the call returned or
propagated.  An object counted in `constructedNew` but not in `destroyedNew`
that is also not part of the resulting container is leaked: the raw block is
deallocated by `RawMemory`'s destructor without its destructor running. -/

structure ThrowOutcome (α : Type) where
  vec : VecState α
  thrown : Bool
  constructedNew : Nat
  destroyedNew : Nat
deriving DecidableEq, Repr

/-- `Vector<T>::EmplaceBack` (lines 366-387) for an element type relocated by
copy construction (throwing-movable but copyable), with throw oracles:
`ctorThrows` — the construction of the new element from `args...` throws;
`copyFail = some i` with `i < size_` — copy-constructing the relocated
element `i` throws.
Growth branch: `RawMemory new_data(growCap size_)` (raw allocation only);
`new(new_data + size_) T(args...)` — on throw nothing was constructed and
`new_data`'s destructor releases the raw block, the container untouched;
`uninitialized_copy_n(data_, size_, new_data)` — on a throw at copy `i` it
destroys the `i` copies it had constructed and rethrows, the element at
`new_data + size_` is not destroyed (1 + i constructed, i destroyed), and
`new_data`'s destructor releases the raw block with the container untouched;
on success `destroy_n` of the old elements, block swap, `++size_`.
In-place branch: one construction at `data_ + size_`; on throw the container
is untouched. -/
def emplaceBackCopy (v : VecState α) (x : α) (ctorThrows : Bool)
    (copyFail : Option Nat) : ThrowOutcome α :=
  if v.cap = v.elems.length then
    if ctorThrows then
      { vec := v, thrown := true, constructedNew := 0, destroyedNew := 0 }
    else
      match copyFail with
      | some i =>
        if i < v.elems.length then
          { vec := v, thrown := true, constructedNew := 1 + i, destroyedNew := i }
        else
          { vec := { elems := v.elems ++ [x], cap := growCap v.elems.length },
            thrown := false, constructedNew := 1 + v.elems.length, destroyedNew := 0 }
      | none =>
        { vec := { elems := v.elems ++ [x], cap := growCap v.elems.length },
          thrown := false, constructedNew := 1 + v.elems.length, destroyedNew := 0 }
  else
    if ctorThrows then
      { vec := v, thrown := true, constructedNew := 0, destroyedNew := 0 }
    else
      { vec := { elems := v.elems ++ [x], cap := v.cap },
        thrown := false, constructedNew := 1, destroyedNew := 0 }

/-- `Vector<T>::PushBack` (lines 390-410) for an element type relocated by
copy construction, with the same throw oracles as `emplaceBackCopy`: the
growth branch (lines 393-404) constructs the new element at
`new_data + size_` first, then relocates by `uninitialized_copy_n`, whose
throw at copy `i` destroys only its own `i` copies and leaves the new
element undestroyed in the deallocated-raw block; the in-place branch
(line 407) performs one construction. -/
def pushBackCopy (v : VecState α) (x : α) (ctorThrows : Bool)
    (copyFail : Option Nat) : ThrowOutcome α :=
  if v.cap = v.elems.length then
    if ctorThrows then
      { vec := v, thrown := true, constructedNew := 0, destroyedNew := 0 }
    else
      match copyFail with
      | some i =>
        if i < v.elems.length then
          { vec := v, thrown := true, constructedNew := 1 + i, destroyedNew := i }
        else
          { vec := { elems := v.elems ++ [x], cap := growCap v.elems.length },
            thrown := false, constructedNew := 1 + v.elems.length, destroyedNew := 0 }
      | none =>
        { vec := { elems := v.elems ++ [x], cap := growCap v.elems.length },
          thrown := false, constructedNew := 1 + v.elems.length, destroyedNew := 0 }
  else
    if ctorThrows then
      { vec := v, thrown := true, constructedNew := 0, destroyedNew := 0 }
    else
      { vec := { elems := v.elems ++ [x], cap := v.cap },
        thrown := false, constructedNew := 1, destroyedNew := 0 }

/-- `Vector<T>::Emplace` (lines 264-308) for an element type relocated by
copy construction, with throw oracles.  `none` models the entry assertion
(line 267) firing for `p > size_`.
Growth branch (lines 270-289): the new element is constructed at
`new_data + p` first (line 273) — on throw nothing else was constructed and
the container is untouched; then two `uninitialized_copy_n` calls relocate
the prefix `[0, p)` and the suffix `[p, size_)` (lines 281-283).
`copyFail = some k` with `k < size_` makes the `k`-th relocation copy overall
throw: for `k < p` the first call had constructed `k` copies and destroys
exactly those `k`, stranding the new element; for `k ≥ p` the first call
completed its `p` copies, and the second call destroys only the `k - p`
copies it itself constructed, stranding the new element and the `p` prefix
copies.  Either way `1 + k` objects were constructed into the new block, the
container is untouched and `new_data`'s destructor releases only raw memory.
In-place branch (lines 290-306): only the construction of the new value
(the local temporary, or the trailing slot when `p = size_`) can throw, and
then the container is untouched; on success with `p ≠ size_` the temporary
and the trailing slot are constructed (2) and the temporary is destroyed at
scope exit (1). -/
def emplaceCopy (v : VecState α) (p : Nat) (x : α) (ctorThrows : Bool)
    (copyFail : Option Nat) : Option (ThrowOutcome α) :=
  if p ≤ v.elems.length then
    some (
      if v.cap = v.elems.length then
        if ctorThrows then
          { vec := v, thrown := true, constructedNew := 0, destroyedNew := 0 }
        else
          match copyFail with
          | some k =>
            if k < v.elems.length then
              { vec := v, thrown := true, constructedNew := 1 + k,
                destroyedNew := if k < p then k else k - p }
            else
              { vec := { elems := v.elems.take p ++ [x] ++ v.elems.drop p,
                         cap := growCap v.elems.length },
                thrown := false, constructedNew := 1 + v.elems.length,
                destroyedNew := 0 }
          | none =>
            { vec := { elems := v.elems.take p ++ [x] ++ v.elems.drop p,
                       cap := growCap v.elems.length },
              thrown := false, constructedNew := 1 + v.elems.length,
              destroyedNew := 0 }
      else
        if ctorThrows then
          { vec := v, thrown := true, constructedNew := 0, destroyedNew := 0 }
        else
          { vec := { elems := v.elems.take p ++ [x] ++ v.elems.drop p,
                     cap := v.cap },
            thrown := false,
            constructedNew := if p = v.elems.length then 1 else 2,
            destroyedNew := if p = v.elems.length then 0 else 1 })
  else
    none

/-- `Vector<T>::Insert` (lines 240-244) forwards to `Emplace`; same throw
behaviour. -/
def insertCopy (v : VecState α) (p : Nat) (x : α) (ctorThrows : Bool)
    (copyFail : Option Nat) : Option (ThrowOutcome α) :=
  emplaceCopy v p x ctorThrows copyFail

/-- `Vector<T>::Reserve` (lines 427-444) for an element type relocated by
copy construction, with a throw oracle on the relocation copies: no-op when
`new_capacity <= capacity`; otherwise a single `uninitialized_copy_n` of all
`size_` elements — a throw at copy `i` destroys exactly the `i` copies that
call had constructed (nothing else was constructed during the operation, so
nothing is stranded), `new_data`'s destructor releases the raw block, and
the container is untouched. -/
def reserveCopy (v : VecState α) (newCapacity : Nat) (copyFail : Option Nat) :
    ThrowOutcome α :=
  if newCapacity ≤ v.cap then
    { vec := v, thrown := false, constructedNew := 0, destroyedNew := 0 }
  else
    match copyFail with
    | some i =>
      if i < v.elems.length then
        { vec := v, thrown := true, constructedNew := i, destroyedNew := i }
      else
        { vec := { elems := v.elems, cap := newCapacity }, thrown := false,
          constructedNew := v.elems.length, destroyedNew := 0 }
    | none =>
      { vec := { elems := v.elems, cap := newCapacity }, thrown := false,
        constructedNew := v.elems.length, destroyedNew := 0 }

/-- `Vector<T>::Resize` (lines 353-363) in the growing case, for an element
type relocated by copy, with a throw oracle on the value construction of the
new slots: `ctorFail = some j` with `j < new_size - size_` — the `j`-th of
the `uninitialized_value_construct_n` constructions throws.
`Reserve(new_size)` runs first and swaps in the enlarged block (capacity
becomes `new_size` when `new_size > capacity`); a later throw rolls back only
the `j` value-constructed objects, so the container keeps its old size and
element values but the already-swapped capacity.  `size_ = new_size` runs
only on success.  The shrinking case destroys the trailing elements. -/
def resizeCopy (v : VecState α) (newSize : Nat) (filler : α)
    (ctorFail : Option Nat) : VecState α × Bool :=
  if v.elems.length < newSize then
    let capAfterReserve := if newSize ≤ v.cap then v.cap else newSize
    match ctorFail with
    | some j =>
      if j < newSize - v.elems.length then
        ({ elems := v.elems, cap := capAfterReserve }, true)
      else
        ({ elems := v.elems ++ List.replicate (newSize - v.elems.length) filler,
           cap := capAfterReserve }, false)
    | none =>
      ({ elems := v.elems ++ List.replicate (newSize - v.elems.length) filler,
         cap := capAfterReserve }, false)
  else
    ({ elems := v.elems.take newSize, cap := v.cap }, false)

/-! ## Self-referential insertion

To check aliasing behaviour the storage slots are modelled individually:
a slot is `dead` (no constructed object), holds a known value, or holds a
live object of unspecified value (the state C++ leaves a moved-from object
in).  The model replays `PushBack`'s growth branch step by step in source
order, with the pushed argument being a reference into the vector's own
storage, so the state of the referenced slot at the moment the new element
is constructed is exactly what the construction reads. -/

inductive Cell (α : Type) where
  | val (a : α)
  | unspec
  | dead
deriving DecidableEq, Repr

/-- A cell is live when it holds a constructed object (of known or
unspecified value). -/
def Cell.live : Cell α → Bool
  | .dead => false
  | _ => true

/-- `Vector<T>::PushBack` growth branch (lines 393-404) called with
`value` aliasing the vector's own slot `i` (`v.PushBack(v[i])` when
`size_ == capacity`), replayed in source order on per-slot states.
`byMove` selects whether the argument is an lvalue (`PushBack(v[i])`,
copy construction of the new element) or an rvalue
(`PushBack(std::move(v[i]))`, move construction, which leaves slot `i` of
the old block live with unspecified value).  Relocation is taken in its
harder, move flavour (line 398), which leaves every old slot unspecified
before `destroy_n` kills them.  Steps:
1. `RawMemory new_data(growCap size_)` — fresh block, all slots dead;
2. `new(new_data + size_) T(std::forward<S>(value))` — reads slot `i` of the
   still-untouched old block;
3. `uninitialized_move_n(data_, size_, new_data)` — each old slot's content
   moves into the same index of the new block, old slots become unspecified;
4. `std::destroy_n(data_, size_)` — old slots die;
5. `data_.Swap(new_data); ++size_`.
Returns (new block's constructed slots, old block after step 4). -/
def pushBackSelfGrow (byMove : Bool) (elems : List α) (i : Nat) :
    List (Cell α) × List (Cell α) :=
  let old0 : List (Cell α) := elems.map .val
  let argCell := old0.getD i .dead
  let newAtEnd : Cell α := argCell
  let old1 := if byMove then old0.set i .unspec else old0
  let frontCells := old1
  let old2 : List (Cell α) := List.replicate old1.length .unspec
  let old3 : List (Cell α) := List.replicate old2.length .dead
  (frontCells ++ [newAtEnd], old3)

/-! ## In-place `Emplace` event order -/

/-- The five kinds of step the in-place branch of `Emplace` performs, in the
order they appear in the trace the model produces. -/
inductive InsEvent (α : Type) where
  | ctorTempFromArgs (x : α)
  | placeLastByMove
  | placeLastByCopy
  | shiftBackwardAssign (lo hi : Nat)
  | moveAssignTempIntoSlot (p : Nat)
  | ctorDirectAtEnd (x : α)
deriving DecidableEq, Repr

/-- The in-place (`capacity != size_`) branch of `Vector<T>::Emplace`
(lines 290-306), with an event trace and a throw oracle for the construction
of the new value.  `tMovable` embeds whether `T` is move-constructible:
line 296 placement-constructs the trailing slot from
`std::forward<T>(data_[size_ - 1])`, an rvalue, which selects the move
constructor when `T` has one and the copy constructor otherwise.
`pos != end` (lines 292-300): `T new_type(std::forward<Args>(args)...)` — on
throw nothing else runs and the container is untouched; then the trailing
slot is constructed from the last element, `std::move_backward` shifts
`[p, size_ - 1)` onto `[p + 1, size_)`, and the temporary is move-assigned
into slot `p`.  `pos == end` (line 303): construct from `args...` directly
at slot `size_` — on throw the container is untouched.
Returns (state after, trace, exception propagated). -/
def emplaceInPlace (v : VecState α) (p : Nat) (x : α) (tMovable : Bool)
    (ctorThrows : Bool) : VecState α × List (InsEvent α) × Bool :=
  if p ≠ v.elems.length then
    if ctorThrows then
      (v, [], true)
    else
      ({ elems := v.elems.take p ++ [x] ++ v.elems.drop p, cap := v.cap },
       [.ctorTempFromArgs x,
        if tMovable then .placeLastByMove else .placeLastByCopy,
        .shiftBackwardAssign p (v.elems.length - 1),
        .moveAssignTempIntoSlot p],
       false)
  else
    if ctorThrows then
      (v, [], true)
    else
      ({ elems := v.elems ++ [x], cap := v.cap }, [.ctorDirectAtEnd x], false)

/-! ## Whole-container copy construction -/

/-- Outcome of `Vector<T>::Vector(const Vector&)`: the constructed element
list (`none` when the constructor threw), the number of elements of the new
vector still alive after the call, whether the allocated block was released,
and the propagated exception payload. -/
structure CopyOutcome (α ε : Type) where
  elemsAfter : Option (List α)
  liveRemaining : Nat
  blockReleased : Bool
  exn : Option ε
deriving DecidableEq, Repr

/-- `Vector<T>::Vector(const Vector& other)` (lines 192-195) with a throw
oracle: `failAt = some (k, e)` with `k < other.size_` — the copy construction
of element `k` throws with payload `e`.
`data_(other.size_)` allocates exactly `other.size_` slots; then
`uninitialized_copy_n(other.data_, size_, data_)` copy-constructs
element-wise.  On a throw at element `k` it destroys the `k` copies it had
constructed (`k` constructed minus `k` destroyed live) and rethrows; the
`Vector` constructor never completes, so the already-constructed member
`data_` is destroyed during unwinding, releasing the block; the exception
reaches the caller unchanged. -/
def copyCtorModel (src : List α) (failAt : Option (Nat × ε)) : CopyOutcome α ε :=
  match failAt with
  | some (k, e) =>
    if k < src.length then
      { elemsAfter := none, liveRemaining := k - k, blockReleased := true,
        exn := some e }
    else
      { elemsAfter := some src, liveRemaining := src.length,
        blockReleased := false, exn := none }
  | none =>
    { elemsAfter := some src, liveRemaining := src.length,
      blockReleased := false, exn := none }

/-! ## Move construction and assignment

Both are `noexcept` in the source and touch only the `RawMemory` pointer,
its capacity and `size_`; the third component of each result counts the
element constructions, copies and destructions performed — the bodies
contain none. -/

/-- `Vector<T>::Vector(Vector&& other)` (lines 219-222):
`data_(std::move(other.data_))` adopts the buffer and nulls the donor
(`RawMemory` move constructor, lines 100-104), `size_(other.size_)`, then
`other.size_ = 0`.  Returns (constructed vector, source after, element
operations performed). -/
def moveCtorModel (src : VecState α) : VecState α × VecState α × Nat :=
  ({ elems := src.elems, cap := src.cap }, { elems := [], cap := 0 }, 0)

/-- `Vector<T>::operator=(Vector&& rhs)` (lines 225-231):
`if (this != &rhs) { Swap(rhs); }` — `isSelf` embeds the address equality
`this == &rhs`.  `Swap` (lines 420-424) exchanges the two blocks and sizes
with no element operation; on self-assignment nothing runs.  Returns
(target after, source after, element operations performed). -/
def moveAssignModel (lhs rhs : VecState α) (isSelf : Bool) :
    VecState α × VecState α × Nat :=
  if isSelf then
    (lhs, rhs, 0)
  else
    (rhs, lhs, 0)

/-! ## Helper lemmas -/

lemma growCap_eq_max (sz : Nat) : growCap sz = max 1 (2 * sz) := by
  unfold growCap
  split <;> omega

/-- Every branch of `Emplace` that passes the position assertion produces the
element list `take p ++ [x] ++ drop p` (for `p = size_` this is `elems ++ [x]`). -/
lemma emplace_ok_elems (v : VecState α) (p : Nat) (x : α)
    (hp : p ≤ v.elems.length) :
    ∃ c : Nat, emplace v p x =
      .ok ({ elems := v.elems.take p ++ [x] ++ v.elems.drop p, cap := c }, p) := by
  unfold emplace
  rw [if_pos hp]
  by_cases hc : v.cap = v.elems.length
  · exact ⟨growCap v.elems.length, by rw [if_pos hc]⟩
  · rw [if_neg hc]
    by_cases hpe : p = v.elems.length
    · subst hpe
      rw [if_neg (by simp)]
      exact ⟨v.cap, by simp⟩
    · rw [if_pos hpe]
      exact ⟨v.cap, rfl⟩

lemma insert_list_length (l : List α) (p : Nat) (x : α) (hp : p ≤ l.length) :
    (l.take p ++ [x] ++ l.drop p).length = l.length + 1 := by
  simp [List.length_append, List.length_take, List.length_drop]
  omega

lemma insert_list_take (l : List α) (p : Nat) (x : α) (hp : p ≤ l.length) :
    (l.take p ++ [x] ++ l.drop p).take p = l.take p := by
  rw [List.take_append_eq_append_take, List.take_append_eq_append_take]
  simp [List.length_take, Nat.min_eq_left hp, List.take_take]

lemma insert_list_drop (l : List α) (p : Nat) (x : α) (hp : p ≤ l.length) :
    (l.take p ++ [x] ++ l.drop p).drop (p + 1) = l.drop p := by
  rw [List.drop_append_eq_append_drop]
  have hlen : (l.take p ++ [x]).length = p + 1 := by
    simp [List.length_take, Nat.min_eq_left hp]
  rw [List.drop_eq_nil_of_le (by omega), hlen]
  simp

lemma insert_list_get (l : List α) (p : Nat) (x : α) (hp : p ≤ l.length) :
    (l.take p ++ [x] ++ l.drop p).get? p = some x := by
  rw [List.append_assoc, List.get?_append_right (by simp [List.length_take])]
  simp [List.length_take, Nat.min_eq_left hp]

lemma erase_list_take (l : List α) (p : Nat) :
    (l.take p ++ l.drop (p + 1)).take p = l.take p := by
  rw [List.take_append_eq_append_take]
  simp [List.length_take, List.take_take]
  omega

lemma erase_list_drop (l : List α) (p : Nat) (hp : p < l.length) :
    (l.take p ++ l.drop (p + 1)).drop p = l.drop (p + 1) := by
  rw [List.drop_append_eq_append_drop]
  rw [List.drop_eq_nil_of_le (by simp [List.length_take])]
  simp [List.length_take, Nat.min_eq_left (Nat.le_of_lt hp)]

lemma erase_list_get (l : List α) (p : Nat) (hp : p + 1 < l.length) :
    (l.take p ++ l.drop (p + 1)).get? p = l.get? (p + 1) := by
  rw [List.get?_append_right (by simp [List.length_take])]
  rw [List.length_take, Nat.min_eq_left (by omega), Nat.sub_self]
  rw [List.get?_drop, Nat.add_zero]

/-! ## Claims -/

/-- C3: growth doubling — whenever an insertion (`PushBack`, `EmplaceBack`,
`Emplace`, `Insert`) runs on a vector with `size == capacity`, the new
capacity is `max 1 (2 * old capacity)`, the surviving elements keep their
values and order, and three `PushBack`s from empty give the capacity
sequence 0 → 1 → 2 → 4 with contents `[1, 2, 3]`. -/
theorem growth_doubling :
    (∀ (α : Type) (v : VecState α) (x : α), v.cap = v.elems.length →
      (pushBack v x).cap = max 1 (2 * v.cap) ∧ (pushBack v x).elems = v.elems ++ [x])
    ∧ (∀ (α : Type) (v : VecState α) (x : α), v.cap = v.elems.length →
      (emplaceBack v x).cap = max 1 (2 * v.cap) ∧
        (emplaceBack v x).elems = v.elems ++ [x])
    ∧ (∀ (α : Type) (v : VecState α) (p : Nat) (x : α),
      p ≤ v.elems.length → v.cap = v.elems.length →
      insert v p x = .ok ({ elems := v.elems.take p ++ [x] ++ v.elems.drop p,
                            cap := max 1 (2 * v.cap) }, p))
    ∧ (⟨[], 0⟩ : VecState Nat).cap = 0
    ∧ (pushBack (⟨[], 0⟩ : VecState Nat) 1).cap = 1
    ∧ (pushBack (pushBack (⟨[], 0⟩ : VecState Nat) 1) 2).cap = 2
    ∧ (pushBack (pushBack (pushBack (⟨[], 0⟩ : VecState Nat) 1) 2) 3).cap = 4
    ∧ (pushBack (pushBack (pushBack (⟨[], 0⟩ : VecState Nat) 1) 2) 3).elems
        = [1, 2, 3] := by
  refine ⟨?_, ?_, ?_, by decide, by decide, by decide, by decide, by decide⟩
  · intro α v x h
    constructor
    · simp only [pushBack, if_pos h]
      rw [growCap_eq_max, h]
    · simp only [pushBack, if_pos h]
  · intro α v x h
    constructor
    · simp only [emplaceBack, if_pos h]
      rw [growCap_eq_max, h]
    · simp only [emplaceBack, if_pos h]
  · intro α v p x hp hc
    simp only [insert, emplace, if_pos hp, if_pos hc]
    rw [growCap_eq_max, hc]

/-- C3 witness: the general parts of `growth_doubling` applied at a concrete
full vector. -/
theorem growth_doubling_witness :
    (pushBack (⟨[5], 1⟩ : VecState Nat) 7).cap = max 1 (2 * 1) ∧
    (pushBack (⟨[5], 1⟩ : VecState Nat) 7).elems = [5] ++ [7] :=
  growth_doubling.1 Nat ⟨[5], 1⟩ 7 rfl

/-- C5: `Insert(p, x)` grows the size by one, keeps `[0, p)`, shifts the old
`[p, end)` right by one, and returns index `p` holding `x`; `Erase(p)` (with
`p < size`) shrinks the size by one, keeps `[0, p)`, shifts the old
`[p+1, end)` left by one, and returns index `p`, whose element is the old
element at `p + 1` (or `end` when the erased element was last). -/
theorem insert_erase_index_arith :
    (∀ (α : Type) (v : VecState α) (p : Nat) (x : α), p ≤ v.elems.length →
      ∃ w : VecState α,
        insert v p x = .ok (w, p) ∧
        w.elems.length = v.elems.length + 1 ∧
        w.elems.take p = v.elems.take p ∧
        w.elems.drop (p + 1) = v.elems.drop p ∧
        w.elems.get? p = some x)
    ∧ (∀ (α : Type) (v : VecState α) (p : Nat), p < v.elems.length →
      ∃ w : VecState α,
        erase v p = .ok (w, p) ∧
        w.elems.length = v.elems.length - 1 ∧
        w.elems.take p = v.elems.take p ∧
        w.elems.drop p = v.elems.drop (p + 1) ∧
        (p + 1 < v.elems.length → w.elems.get? p = v.elems.get? (p + 1)) ∧
        (p + 1 = v.elems.length → p = w.elems.length)) := by
  constructor
  · intro α v p x hp
    obtain ⟨c, hc⟩ := emplace_ok_elems v p x hp
    refine ⟨{ elems := v.elems.take p ++ [x] ++ v.elems.drop p, cap := c }, ?_, ?_, ?_, ?_, ?_⟩
    · exact hc
    · exact insert_list_length v.elems p x hp
    · exact insert_list_take v.elems p x hp
    · exact insert_list_drop v.elems p x hp
    · exact insert_list_get v.elems p x hp
  · intro α v p hp
    refine ⟨{ elems := v.elems.take p ++ v.elems.drop (p + 1), cap := v.cap },
      ?_, ?_, ?_, ?_, ?_, ?_⟩
    · rw [erase, if_pos hp]
    · simp [List.length_take, List.length_drop]
      omega
    · exact erase_list_take v.elems p
    · exact erase_list_drop v.elems p hp
    · intro hlt
      exact erase_list_get v.elems p hlt
    · intro heq
      simp [List.length_take, List.length_drop]
      omega

/-- C5 witness: `insert_erase_index_arith` applied at concrete inputs. -/
theorem insert_erase_index_arith_witness :
    (∃ w : VecState Nat,
      insert (⟨[1, 2, 3], 4⟩ : VecState Nat) 1 9 = .ok (w, 1) ∧
      w.elems.length = 3 + 1 ∧
      w.elems.take 1 = [1, 2, 3].take 1 ∧
      w.elems.drop 2 = [1, 2, 3].drop 1 ∧
      w.elems.get? 1 = some 9) ∧
    (∃ w : VecState Nat,
      erase (⟨[1, 2, 3], 4⟩ : VecState Nat) 1 = .ok (w, 1) ∧
      w.elems.length = 3 - 1 ∧
      w.elems.take 1 = [1, 2, 3].take 1 ∧
      w.elems.drop 1 = [1, 2, 3].drop 2 ∧
      (2 < 3 → w.elems.get? 1 = [1, 2, 3].get? 2) ∧
      (2 = 3 → 1 = w.elems.length)) :=
  ⟨insert_erase_index_arith.1 Nat ⟨[1, 2, 3], 4⟩ 1 9 (by decide),
   insert_erase_index_arith.2 Nat ⟨[1, 2, 3], 4⟩ 1 (by decide)⟩

/-- C7: if copy construction of element `k` throws during the whole-container
copy constructor, zero live elements remain, the allocated block is released,
and the originating exception propagates unchanged. -/
theorem copy_ctor_rollback :
    ∀ (α ε : Type) (src : List α) (k : Nat) (e : ε), k < src.length →
      copyCtorModel src (some (k, e)) =
        { elemsAfter := none, liveRemaining := 0, blockReleased := true,
          exn := some e } := by
  intro α ε src k e hk
  simp [copyCtorModel, hk]

/-- C7 witness: `copy_ctor_rollback` at a three-element source failing on
element 1. -/
theorem copy_ctor_rollback_witness :
    copyCtorModel [10, 20, 30] (some (1, 42)) =
      { elemsAfter := (none : Option (List Nat)), liveRemaining := 0,
        blockReleased := true, exn := some (42 : Nat) } :=
  copy_ctor_rollback Nat Nat [10, 20, 30] 1 42 (by decide)

/-- C10: move-assigning a vector to itself (the `this == &rhs` branch of
`operator=(Vector&&)`) leaves size, capacity and elements unchanged and
performs no element operation. -/
theorem self_move_assign_noop :
    ∀ (α : Type) (v : VecState α), moveAssignModel v v true = (v, v, 0) := by
  intro α v
  rfl

/-- C2: every relocation performed by `Reserve`, `EmplaceBack`, `PushBack`
and `Emplace` growth is the single strategy `relocKind` chosen statically
from the element type's traits: move construction iff the move constructor
is non-throwing or the type is not copy-constructible, copy construction
otherwise. -/
theorem reloc_dispatch :
    ∀ nothrowMove copyable : Bool,
      (relocKind nothrowMove copyable = .move ↔
        (nothrowMove = true ∨ copyable = false))
      ∧ (relocKind nothrowMove copyable = .copy ↔
        ¬(nothrowMove = true ∨ copyable = false))
      ∧ (∀ (α : Type) (v : VecState α) (n : Nat) (r : Reloc),
          r ∈ (reserveT nothrowMove copyable v n).2 →
            r = relocKind nothrowMove copyable)
      ∧ (∀ (α : Type) (v : VecState α) (x : α) (r : Reloc),
          r ∈ (emplaceBackT nothrowMove copyable v x).2 →
            r = relocKind nothrowMove copyable)
      ∧ (∀ (α : Type) (v : VecState α) (x : α) (r : Reloc),
          r ∈ (pushBackT nothrowMove copyable v x).2 →
            r = relocKind nothrowMove copyable)
      ∧ (∀ (α : Type) (v : VecState α) (p : Nat) (x : α) (r : Reloc),
          r ∈ (emplaceT nothrowMove copyable v p x).2 →
            r = relocKind nothrowMove copyable) := by
  intro nothrowMove copyable
  refine ⟨?_, ?_, ?_, ?_, ?_, ?_⟩
  · cases nothrowMove <;> cases copyable <;> simp [relocKind]
  · cases nothrowMove <;> cases copyable <;> simp [relocKind]
  · intro α v n r hr
    rw [reserveT] at hr
    split at hr
    · simp at hr
    · exact List.eq_of_mem_replicate hr
  · intro α v x r hr
    rw [emplaceBackT] at hr
    split at hr
    · exact List.eq_of_mem_replicate hr
    · simp at hr
  · intro α v x r hr
    rw [pushBackT] at hr
    split at hr
    · exact List.eq_of_mem_replicate hr
    · simp at hr
  · intro α v p x r hr
    rw [emplaceT] at hr
    split at hr
    · split at hr
      · rcases List.mem_append.mp hr with h | h
        · exact List.eq_of_mem_replicate h
        · exact List.eq_of_mem_replicate h
      · simp at hr
    · simp at hr

/-- C2 witness: `reloc_dispatch` applied to a growing `Reserve` of a
nothrow-movable type and a growing `EmplaceBack` of a throwing-movable
copyable type. -/
theorem reloc_dispatch_witness :
    Reloc.move = relocKind true true ∧ Reloc.copy = relocKind false true :=
  ⟨(reloc_dispatch true true).2.2.1 Nat ⟨[3], 0⟩ 2 Reloc.move (by decide),
   (reloc_dispatch false true).2.2.2.1 Nat ⟨[3], 1⟩ 5 Reloc.copy (by decide)⟩

lemma getD_map_val (elems : List α) (i : Nat) (h : i < elems.length) :
    (elems.map Cell.val).getD i Cell.dead = Cell.val (elems.get ⟨i, h⟩) := by
  rw [List.getD_eq_getElem?_getD, List.getElem?_map, List.getElem?_eq_getElem h]
  rfl

/-- C4: pushing a reference to the vector's own element `i` (by copy or by
move) onto a full vector relocates into a new block whose `size + 1` slots
are all live, the appended slot holds the original value of element `i`, and
for a copy-argument every original element value is intact. -/
theorem self_insert_safety :
    ∀ (α : Type) (elems : List α) (i : Nat) (h : i < elems.length) (byMove : Bool),
      (pushBackSelfGrow byMove elems i).1.length = elems.length + 1 ∧
      (∀ c ∈ (pushBackSelfGrow byMove elems i).1, c.live = true) ∧
      (pushBackSelfGrow byMove elems i).1.getLast? =
        some (Cell.val (elems.get ⟨i, h⟩)) ∧
      (byMove = false →
        (pushBackSelfGrow byMove elems i).1 =
          elems.map Cell.val ++ [Cell.val (elems.get ⟨i, h⟩)]) := by
  intro α elems i h byMove
  have harg := getD_map_val elems i h
  refine ⟨?_, ?_, ?_, ?_⟩
  · cases byMove <;> simp [pushBackSelfGrow, List.length_set]
  · intro c hc
    simp only [pushBackSelfGrow] at hc
    rw [List.mem_append] at hc
    rcases hc with hc | hc
    · cases byMove with
      | false =>
        simp only [Bool.false_eq_true, if_neg] at hc
        obtain ⟨a, _, rfl⟩ := List.mem_map.mp (by simpa using hc)
        rfl
      | true =>
        simp only [if_pos] at hc
        rcases List.mem_or_eq_of_mem_set (by simpa using hc) with hm | rfl
        · obtain ⟨a, _, rfl⟩ := List.mem_map.mp hm
          rfl
        · rfl
    · rw [List.mem_singleton.mp hc, harg]
      rfl
  · simp only [pushBackSelfGrow, harg]
    cases byMove <;> simp [List.getLast?_concat]
  · intro hb
    subst hb
    simp only [pushBackSelfGrow, harg]
    simp

/-- C4 witness: `self_insert_safety` on the full two-element vector
`[5, 7]`, pushing its own element 0 by move and by copy. -/
theorem self_insert_safety_witness :
    ((pushBackSelfGrow true [5, 7] 0).1.length = 2 + 1 ∧
     (∀ c ∈ (pushBackSelfGrow true [5, 7] 0).1, c.live = true) ∧
     (pushBackSelfGrow true [5, 7] 0).1.getLast? = some (Cell.val 5) ∧
     (true = false →
       (pushBackSelfGrow true [5, 7] 0).1 =
         [5, 7].map Cell.val ++ [Cell.val 5])) ∧
    ((pushBackSelfGrow false [5, 7] 0).1.length = 2 + 1 ∧
     (∀ c ∈ (pushBackSelfGrow false [5, 7] 0).1, c.live = true) ∧
     (pushBackSelfGrow false [5, 7] 0).1.getLast? = some (Cell.val 5) ∧
     (false = false →
       (pushBackSelfGrow false [5, 7] 0).1 =
         [5, 7].map Cell.val ++ [Cell.val 5])) :=
  ⟨self_insert_safety Nat [5, 7] 0 (by decide) true,
   self_insert_safety Nat [5, 7] 0 (by decide) false⟩

/-- C1 counterexample: on the full one-element vector `[0]`, growing
`EmplaceBack(1)` whose relocation copy throws propagates the exception with
size, capacity and elements preserved, but the element already constructed in
the new block is never destroyed (1 constructed, 0 destroyed: it leaks); and
`Resize(1)` on an empty vector whose value construction throws leaves
capacity 1 ≠ 0, so the container is not exactly as before the call. -/
theorem growth_strong_guarantee_counterexample :
    (emplaceBackCopy (⟨[0], 1⟩ : VecState Nat) 1 false (some 0)).thrown = true ∧
    (emplaceBackCopy (⟨[0], 1⟩ : VecState Nat) 1 false (some 0)).vec = ⟨[0], 1⟩ ∧
    (emplaceBackCopy (⟨[0], 1⟩ : VecState Nat) 1 false (some 0)).constructedNew = 1 ∧
    (emplaceBackCopy (⟨[0], 1⟩ : VecState Nat) 1 false (some 0)).destroyedNew = 0 ∧
    (resizeCopy (⟨[], 0⟩ : VecState Nat) 1 7 (some 0)).2 = true ∧
    ¬(resizeCopy (⟨[], 0⟩ : VecState Nat) 1 7 (some 0)).1.cap =
        (⟨[], 0⟩ : VecState Nat).cap := by
  decide

/-- C1 amended: when an element constructor or relocation copy constructor
throws in a growth-triggered `PushBack`, `EmplaceBack`, `Emplace`, `Insert`
or `Reserve`, the exception propagates with the container's size, capacity
and element values exactly as before the call, and the failing relocation
call destroys exactly the copies it itself constructed — but objects
constructed into the new block earlier in the operation are not destroyed:
in `PushBack`/`EmplaceBack` the already-constructed new element leaks, in
`Emplace`/`Insert` the new element leaks and, when the suffix relocation
throws, so do the `p` prefix copies of a completed first relocation call;
`Reserve` alone strands nothing.  In `Resize`, a throw while
value-constructing the new slots preserves size and element values but the
capacity keeps the value already installed by `Reserve`. -/
theorem growth_strong_guarantee_amended :
    (∀ (α : Type) (v : VecState α) (x : α) (ctorThrows : Bool)
        (copyFail : Option Nat),
      (emplaceBackCopy v x ctorThrows copyFail).thrown = true →
        (emplaceBackCopy v x ctorThrows copyFail).vec = v ∧
        (emplaceBackCopy v x ctorThrows copyFail).destroyedNew +
            (if ctorThrows then 0 else 1) =
          (emplaceBackCopy v x ctorThrows copyFail).constructedNew)
    ∧ (∀ (α : Type) (v : VecState α) (x : α) (ctorThrows : Bool)
        (copyFail : Option Nat),
      (pushBackCopy v x ctorThrows copyFail).thrown = true →
        (pushBackCopy v x ctorThrows copyFail).vec = v ∧
        (pushBackCopy v x ctorThrows copyFail).destroyedNew +
            (if ctorThrows then 0 else 1) =
          (pushBackCopy v x ctorThrows copyFail).constructedNew)
    ∧ (∀ (α : Type) (v : VecState α) (p : Nat) (x : α) (ctorThrows : Bool)
        (copyFail : Option Nat) (out : ThrowOutcome α),
      emplaceCopy v p x ctorThrows copyFail = some out → out.thrown = true →
        out.vec = v ∧
        out.destroyedNew +
            (if ctorThrows then 0
             else match copyFail with
                  | some k => if k < p then 1 else 1 + p
                  | none => 0) =
          out.constructedNew)
    ∧ (∀ (α : Type) (v : VecState α) (p : Nat) (x : α) (ctorThrows : Bool)
        (copyFail : Option Nat) (out : ThrowOutcome α),
      insertCopy v p x ctorThrows copyFail = some out → out.thrown = true →
        out.vec = v ∧
        out.destroyedNew +
            (if ctorThrows then 0
             else match copyFail with
                  | some k => if k < p then 1 else 1 + p
                  | none => 0) =
          out.constructedNew)
    ∧ (∀ (α : Type) (v : VecState α) (newCapacity : Nat) (copyFail : Option Nat),
      (reserveCopy v newCapacity copyFail).thrown = true →
        (reserveCopy v newCapacity copyFail).vec = v ∧
        (reserveCopy v newCapacity copyFail).destroyedNew =
          (reserveCopy v newCapacity copyFail).constructedNew)
    ∧ (∀ (α : Type) (v : VecState α) (newSize : Nat) (filler : α) (j : Nat),
      j < newSize - v.elems.length →
        resizeCopy v newSize filler (some j) =
          ({ elems := v.elems, cap := if newSize ≤ v.cap then v.cap else newSize },
           true)) := by
  have hemp : ∀ (α : Type) (v : VecState α) (p : Nat) (x : α) (ctorThrows : Bool)
      (copyFail : Option Nat) (out : ThrowOutcome α),
      emplaceCopy v p x ctorThrows copyFail = some out → out.thrown = true →
        out.vec = v ∧
        out.destroyedNew +
            (if ctorThrows then 0
             else match copyFail with
                  | some k => if k < p then 1 else 1 + p
                  | none => 0) =
          out.constructedNew := by
    intro α v p x ct cf out hout hthrown
    by_cases hp : p ≤ v.elems.length
    · by_cases hc : v.cap = v.elems.length
      · cases ct with
        | true =>
          simp [emplaceCopy, hp, hc] at hout
          subst hout
          simp
        | false =>
          cases cf with
          | none =>
            simp [emplaceCopy, hp, hc] at hout
            subst hout
            simp at hthrown
          | some k =>
            by_cases hk : k < v.elems.length
            · simp [emplaceCopy, hp, hc, hk] at hout
              subst hout
              refine ⟨rfl, ?_⟩
              by_cases hkp : k < p <;> simp [hkp] <;> omega
            · simp [emplaceCopy, hp, hc, hk] at hout
              subst hout
              simp at hthrown
      · cases ct with
        | true =>
          simp [emplaceCopy, hp, hc] at hout
          subst hout
          simp
        | false =>
          simp [emplaceCopy, hp, hc] at hout
          subst hout
          simp at hthrown
    · simp [emplaceCopy, hp] at hout
  refine ⟨?_, ?_, hemp, ?_, ?_, ?_⟩
  · intro α v x ct cf hthrown
    cases ct with
    | true =>
      by_cases hc : v.cap = v.elems.length <;> simp [emplaceBackCopy, hc]
    | false =>
      by_cases hc : v.cap = v.elems.length
      · cases cf with
        | none => simp [emplaceBackCopy, hc] at hthrown
        | some i =>
          by_cases hi : i < v.elems.length
          · simp [emplaceBackCopy, hc, hi]
            omega
          · simp [emplaceBackCopy, hc, hi] at hthrown
      · simp [emplaceBackCopy, hc] at hthrown
  · intro α v x ct cf hthrown
    cases ct with
    | true =>
      by_cases hc : v.cap = v.elems.length <;> simp [pushBackCopy, hc]
    | false =>
      by_cases hc : v.cap = v.elems.length
      · cases cf with
        | none => simp [pushBackCopy, hc] at hthrown
        | some i =>
          by_cases hi : i < v.elems.length
          · simp [pushBackCopy, hc, hi]
            omega
          · simp [pushBackCopy, hc, hi] at hthrown
      · simp [pushBackCopy, hc] at hthrown
  · intro α v p x ct cf out hout hthrown
    exact hemp α v p x ct cf out hout hthrown
  · intro α v newCapacity cf hthrown
    by_cases hcap : newCapacity ≤ v.cap
    · simp [reserveCopy, hcap] at hthrown
    · cases cf with
      | none => simp [reserveCopy, hcap] at hthrown
      | some i =>
        by_cases hi : i < v.elems.length
        · simp [reserveCopy, hcap, hi]
        · simp [reserveCopy, hcap, hi] at hthrown
  · intro α v newSize filler j hj
    have hlt : v.elems.length < newSize := by omega
    simp [resizeCopy, hlt, hj]

/-- C1 witness: `growth_strong_guarantee_amended` on failing relocations of
full one- and two-element vectors (`EmplaceBack`, `PushBack`, `Emplace` with
a prefix failure, `Insert` with a suffix failure stranding the prefix
copies, growing `Reserve`) and on a failing `Resize` from empty. -/
theorem growth_strong_guarantee_amended_witness :
    ((emplaceBackCopy (⟨[0], 1⟩ : VecState Nat) 1 false (some 0)).vec = ⟨[0], 1⟩ ∧
     (emplaceBackCopy (⟨[0], 1⟩ : VecState Nat) 1 false (some 0)).destroyedNew + 1 =
       (emplaceBackCopy (⟨[0], 1⟩ : VecState Nat) 1 false (some 0)).constructedNew) ∧
    ((pushBackCopy (⟨[8], 1⟩ : VecState Nat) 3 false (some 0)).vec = ⟨[8], 1⟩ ∧
     (pushBackCopy (⟨[8], 1⟩ : VecState Nat) 3 false (some 0)).destroyedNew + 1 =
       (pushBackCopy (⟨[8], 1⟩ : VecState Nat) 3 false (some 0)).constructedNew) ∧
    ((⟨⟨[4, 6], 2⟩, true, 1, 0⟩ : ThrowOutcome Nat).vec = ⟨[4, 6], 2⟩ ∧
     (⟨⟨[4, 6], 2⟩, true, 1, 0⟩ : ThrowOutcome Nat).destroyedNew + 1 =
       (⟨⟨[4, 6], 2⟩, true, 1, 0⟩ : ThrowOutcome Nat).constructedNew) ∧
    ((⟨⟨[4, 6], 2⟩, true, 2, 0⟩ : ThrowOutcome Nat).vec = ⟨[4, 6], 2⟩ ∧
     (⟨⟨[4, 6], 2⟩, true, 2, 0⟩ : ThrowOutcome Nat).destroyedNew + (1 + 1) =
       (⟨⟨[4, 6], 2⟩, true, 2, 0⟩ : ThrowOutcome Nat).constructedNew) ∧
    ((reserveCopy (⟨[3], 1⟩ : VecState Nat) 2 (some 0)).vec = ⟨[3], 1⟩ ∧
     (reserveCopy (⟨[3], 1⟩ : VecState Nat) 2 (some 0)).destroyedNew =
       (reserveCopy (⟨[3], 1⟩ : VecState Nat) 2 (some 0)).constructedNew) ∧
    resizeCopy (⟨[], 0⟩ : VecState Nat) 2 7 (some 0) =
      ((⟨[], 2⟩ : VecState Nat), true) :=
  ⟨growth_strong_guarantee_amended.1 Nat ⟨[0], 1⟩ 1 false (some 0) (by decide),
   growth_strong_guarantee_amended.2.1 Nat ⟨[8], 1⟩ 3 false (some 0) (by decide),
   growth_strong_guarantee_amended.2.2.1 Nat ⟨[4, 6], 2⟩ 1 9 false (some 0)
     ⟨⟨[4, 6], 2⟩, true, 1, 0⟩ (by decide) (by decide),
   growth_strong_guarantee_amended.2.2.2.1 Nat ⟨[4, 6], 2⟩ 1 9 false (some 1)
     ⟨⟨[4, 6], 2⟩, true, 2, 0⟩ (by decide) (by decide),
   growth_strong_guarantee_amended.2.2.2.2.1 Nat ⟨[3], 1⟩ 2 (some 0) (by decide),
   growth_strong_guarantee_amended.2.2.2.2.2 Nat ⟨[], 0⟩ 2 7 0 (by decide)⟩

/-- C6 counterexample: in the in-place branch of `Emplace`, for a
move-constructible element type, the trailing slot is constructed from
`std::forward<T>(data_[size_ - 1])` — an rvalue, so by move construction,
not by copy as the claim states: the trace contains `placeLastByMove` and no
`placeLastByCopy`. -/
theorem in_place_insert_counterexample :
    (emplaceInPlace (⟨[10, 20], 4⟩ : VecState Nat) 0 30 true false).2.1 =
      [.ctorTempFromArgs 30, .placeLastByMove, .shiftBackwardAssign 0 1,
       .moveAssignTempIntoSlot 0] ∧
    InsEvent.placeLastByCopy ∉
      (emplaceInPlace (⟨[10, 20], 4⟩ : VecState Nat) 0 30 true false).2.1 := by
  decide

/-- C6 amended: with spare capacity and `p` strictly before `end`, `Emplace`
first fully constructs the new value into a local temporary (so a throwing
construction leaves the container untouched); then the current last element
is placement-constructed into the trailing slot from an rvalue reference —
move construction when `T` is move-constructible, copy construction
otherwise; then `[p, old_end)` is shifted one slot right by backward
assignment; finally the temporary is move-assigned into slot `p`. -/
theorem in_place_insert_order :
    ∀ (α : Type) (v : VecState α) (p : Nat) (x : α) (tMovable : Bool),
      p < v.elems.length →
        emplaceInPlace v p x tMovable true = (v, [], true) ∧
        (emplaceInPlace v p x tMovable false).2.1 =
          [.ctorTempFromArgs x,
           (if tMovable then .placeLastByMove else .placeLastByCopy),
           .shiftBackwardAssign p (v.elems.length - 1),
           .moveAssignTempIntoSlot p] ∧
        (emplaceInPlace v p x tMovable false).1 =
          { elems := v.elems.take p ++ [x] ++ v.elems.drop p, cap := v.cap } ∧
        (emplaceInPlace v p x tMovable false).2.2 = false := by
  intro α v p x tm hp
  have hne : p ≠ v.elems.length := Nat.ne_of_lt hp
  refine ⟨?_, ?_, ?_, ?_⟩ <;> simp [emplaceInPlace, hne]

/-- C6 witness: `in_place_insert_order` at position 0 of `[10, 20]` with a
copy-only element type. -/
theorem in_place_insert_order_witness :
    emplaceInPlace (⟨[10, 20], 4⟩ : VecState Nat) 0 30 false true =
      (⟨[10, 20], 4⟩, [], true) ∧
    (emplaceInPlace (⟨[10, 20], 4⟩ : VecState Nat) 0 30 false false).2.1 =
      [.ctorTempFromArgs 30, .placeLastByCopy, .shiftBackwardAssign 0 1,
       .moveAssignTempIntoSlot 0] ∧
    (emplaceInPlace (⟨[10, 20], 4⟩ : VecState Nat) 0 30 false false).1 =
      ⟨[30, 10, 20], 4⟩ ∧
    (emplaceInPlace (⟨[10, 20], 4⟩ : VecState Nat) 0 30 false false).2.2 = false :=
  in_place_insert_order Nat ⟨[10, 20], 4⟩ 0 30 false (by decide)

/-- C8 counterexample: move assignment is a swap, so after `v = move(w)` the
source `w` holds `v`'s former two elements — it is not empty. -/
theorem move_adopt_counterexample :
    (moveAssignModel (⟨[1, 2], 2⟩ : VecState Nat) ⟨[3], 1⟩ false).2.1 =
      ⟨[1, 2], 2⟩ ∧
    (moveAssignModel (⟨[1, 2], 2⟩ : VecState Nat) ⟨[3], 1⟩ false).2.1.elems.length
      ≠ 0 := by
  decide

/-- C8 amended: move construction adopts the source's block and size with no
element construction, copy or destruction (both operations are `noexcept`),
leaving the source valid and empty; move assignment to a different vector
swaps the two blocks and sizes with no element operation, leaving the source
holding the destination's former contents (empty only if the destination was
empty). -/
theorem move_adopt_amended :
    ∀ (α : Type) (src lhs rhs : VecState α),
      moveCtorModel src =
        ({ elems := src.elems, cap := src.cap }, { elems := [], cap := 0 }, 0) ∧
      moveAssignModel lhs rhs false = (rhs, lhs, 0) := by
  intro α src lhs rhs
  exact ⟨rfl, rfl⟩

/-- C9 counterexample: `PopBack` on an empty vector (violating `size > 0`)
fires no assertion — it completes, underflowing the `size_t` size to
`2 ^ 64 - 1` instead of detecting the violation. -/
theorem precondition_assert_counterexample :
    popBack (⟨[], 0⟩ : VecState Nat) = .ok ([], 2 ^ 64 - 1) := by
  rfl

/-- C9 amended: indexed access, `Erase` and `Emplace`/`Insert` detect a
violated positional precondition with a debug assertion, but `PopBack` does
not check `size > 0`: it always completes without an assertion. -/
theorem precondition_assert_checks :
    (∀ (α : Type) (v : VecState α) (i : Nat), v.elems.length ≤ i →
      getIdx v i = .error ())
    ∧ (∀ (α : Type) (v : VecState α) (p : Nat), v.elems.length ≤ p →
      erase v p = .error ())
    ∧ (∀ (α : Type) (v : VecState α) (p : Nat) (x : α), v.elems.length < p →
      emplace v p x = .error ())
    ∧ (∀ (α : Type) (v : VecState α) (p : Nat) (x : α), v.elems.length < p →
      insert v p x = .error ())
    ∧ (∀ (α : Type) (v : VecState α), ∃ r, popBack v = .ok r) := by
  refine ⟨?_, ?_, ?_, ?_, ?_⟩
  · intro α v i hi
    unfold getIdx
    rw [dif_neg (by omega)]
  · intro α v p hp
    unfold erase
    rw [if_neg (by omega)]
  · intro α v p x hp
    unfold emplace
    rw [if_neg (by omega)]
  · intro α v p x hp
    unfold insert emplace
    rw [if_neg (by omega)]
  · intro α v
    exact ⟨_, rfl⟩

/-- C9 witness: `precondition_assert_checks` on a one-element vector with
out-of-range positions. -/
theorem precondition_assert_checks_witness :
    getIdx (⟨[4], 1⟩ : VecState Nat) 1 = .error () ∧
    erase (⟨[4], 1⟩ : VecState Nat) 1 = .error () ∧
    emplace (⟨[4], 1⟩ : VecState Nat) 2 9 = .error () ∧
    insert (⟨[4], 1⟩ : VecState Nat) 2 9 = .error () ∧
    ∃ r, popBack (⟨[4], 1⟩ : VecState Nat) = .ok r :=
  ⟨precondition_assert_checks.1 Nat ⟨[4], 1⟩ 1 (by decide),
   precondition_assert_checks.2.1 Nat ⟨[4], 1⟩ 1 (by decide),
   precondition_assert_checks.2.2.1 Nat ⟨[4], 1⟩ 2 9 (by decide),
   precondition_assert_checks.2.2.2.1 Nat ⟨[4], 1⟩ 2 9 (by decide),
   precondition_assert_checks.2.2.2.2 Nat ⟨[4], 1⟩⟩

end AdvVec
